import Mathlib

/-!
Verification of the minimum-weight vertex cover MILP pipeline (`src/main.py`).

The program translates a graph instance (a list of `Arc`s and a list of
per-node `weights`) into a MILP formulation registered with an external
solver (pyscipopt), interprets the solver's answer, validates it and
reports it.  This file is a shallow embedding of that code:

* Python floats (node weights, solver-reported variable values) are
  modelled as rationals `ℚ`.
* The pyscipopt `Model` object is modelled as an explicit `SolverModel`
  record accumulating the registered variables, constraints and
  objective; the methods of `MinimumVertexCoverProblem` become functions
  that thread this state.  A Python exception is modelled as an
  `Option String` error component returned together with the solver
  state reached when the exception was raised.
* `print`/`warnings.warn` calls of the post-solve phase are modelled as
  an explicit trace of `Event`s (the progress prints of the construction
  phase carry no information and are omitted).
* The external `optimize` call is a parameter: a function producing a
  status string and a per-node assignment `Nat → ℚ`
  (the value `getVal` reports for the decision variable `x[node]`).
-/

namespace MinimumVertexCover

/-- An undirected arc between nodes `a` and `b` (class `Arc`).  Endpoints
are the integer node identifiers (nonnegative, as produced by
`range`-based node sets). -/
structure Arc where
  a : Nat
  b : Nat
  deriving DecidableEq

/-- The Python `repr` of an `Arc`, from `Arc.__repr__`. -/
def arcRepr (arc : Arc) : String :=
  "Arc(" ++ toString arc.a ++ "," ++ toString arc.b ++ ")"

/-- A decision variable as registered by `addVar(name, vtype)`. -/
structure Var where
  name : String
  vtype : String
  deriving DecidableEq

/-- A linear constraint `x[a] + x[b] >= 1` as registered by `addCons`,
together with its name string.  Its meaning is `consSat` below. -/
structure Constraint where
  a : Nat
  b : Nat
  name : String
  deriving DecidableEq

/-- The state of the pyscipopt `Model`: everything the program has
registered with the solver so far. -/
structure SolverModel where
  timeLimit : Nat
  vars : List Var
  constraints : List Constraint
  objective : List (ℚ × Nat)
  sense : String
  deriving DecidableEq

/-- Class constant `SOLVER_TIME_LIMIT` of `MinimumVertexCoverProblem`. -/
def SOLVER_TIME_LIMIT : Nat := 600

/-- Method `initialize_solver`: a fresh solver model with the time
limit parameter set; nothing registered yet. -/
def init_solver : SolverModel :=
  { timeLimit := SOLVER_TIME_LIMIT
    vars := []
    constraints := []
    objective := []
    sense := "" }

/-- Method `generate_decision_variables`: one binary variable
`x[node]` per node, where the nodes are `range(len(self.weights))`. -/
def generate_decision_variables (weights : List ℚ) (m : SolverModel) : SolverModel :=
  { m with
    vars := (List.range weights.length).map
      (fun node => { name := "x[" ++ toString node ++ "]", vtype := "BINARY" }) }

/-- Method `_validate_arc`: returns the `ValueError` message raised when
an endpoint of `arc` is not in `self.nodes = range(nNodes)`, and `none`
when both endpoints are valid. -/
def validate_arc (nNodes : Nat) (arc : Arc) : Option String :=
  if ¬ arc.a < nNodes then
    some ("Left endpoint of arc " ++ arcRepr arc ++ " is outside the index of `self.weights`")
  else if ¬ arc.b < nNodes then
    some ("Right endpoint of arc " ++ arcRepr arc ++ " is outside the index of `self.weights`")
  else
    none

/-- The constraint that `generate_constraints` registers for one arc:
`x[arc.a] + x[arc.b] >= 1`, with the name string from the source. -/
def consOf (arc : Arc) : Constraint :=
  { a := arc.a
    b := arc.b
    name := "Must select at least one endpoint of " ++ arcRepr arc }

/-- The `addCons` call on the solver model. -/
def addCons (m : SolverModel) (arc : Arc) : SolverModel :=
  { m with constraints := m.constraints ++ [consOf arc] }

/-- Method `generate_constraints`: for each arc in order, first
`_validate_arc`, then `addCons`.  When validation raises, the loop stops
and the solver model reached so far is left behind together with the
error message (the Python exception aborts `__init__` mid-loop). -/
def generate_constraints (nNodes : Nat) (arcs : List Arc) (m : SolverModel) :
    SolverModel × Option String :=
  match arcs with
  | [] => (m, none)
  | arc :: rest =>
    match validate_arc nNodes arc with
    | some err => (m, some err)
    | none => generate_constraints nNodes rest (addCons m arc)

/-- Method `generate_objective_function`: `setObjective` with the linear
expression `sum(weights[node] * x[node] for node in nodes)` (one term
per node, in node order) and sense `minimize`. -/
def generate_objective_function (weights : List ℚ) (m : SolverModel) : SolverModel :=
  { m with
    objective := (List.range weights.length).map (fun node => (weights.getD node 0, node))
    sense := "minimize" }

/-- The data held by a fully- or partially-constructed
`MinimumVertexCoverProblem` object: the instance data plus the solver
state. -/
structure Problem where
  arcs : List Arc
  weights : List ℚ
  solver : SolverModel
  deriving DecidableEq

/-- `MinimumVertexCoverProblem.__init__`: store `arcs` and `weights`,
initialize the solver, generate decision variables, constraints and the
objective, in that order.  When `generate_constraints` raises, the
objective is never set and the error propagates; the first component
records the state reached at that point. -/
def buildProblem (arcs : List Arc) (weights : List ℚ) : Problem × Option String :=
  match generate_constraints weights.length arcs
      (generate_decision_variables weights init_solver) with
  | (m2, some err) => ({ arcs := arcs, weights := weights, solver := m2 }, some err)
  | (m2, none) =>
    ({ arcs := arcs, weights := weights,
       solver := generate_objective_function weights m2 }, none)

/-- Validity of an arc against the node set `range(nNodes)`: both
endpoints are in range (per the data-model invariant). -/
def arcValid (nNodes : Nat) (arc : Arc) : Prop :=
  arc.a < nNodes ∧ arc.b < nNodes

instance (n : Nat) (arc : Arc) : Decidable (arcValid n arc) :=
  inferInstanceAs (Decidable (arc.a < n ∧ arc.b < n))

/-- Semantics of one registered constraint: `x[a] + x[b] ≥ 1`. -/
def consSat (c : Constraint) (x : Nat → ℚ) : Prop :=
  1 ≤ x c.a + x c.b

instance (c : Constraint) (x : Nat → ℚ) : Decidable (consSat c x) :=
  inferInstanceAs (Decidable (1 ≤ x c.a + x c.b))

/-- Satisfaction of every registered constraint. -/
def satisfiesAll (cs : List Constraint) (x : Nat → ℚ) : Prop :=
  ∀ c ∈ cs, consSat c x

instance (cs : List Constraint) (x : Nat → ℚ) : Decidable (satisfiesAll cs x) :=
  List.decidableBAll (fun c => consSat c x) cs

/-- Value of a registered linear expression (list of coefficient/index
terms) under an assignment. -/
def evalLinear (terms : List (ℚ × Nat)) (x : Nat → ℚ) : ℚ :=
  (terms.map (fun t => t.1 * x t.2)).sum

/-- An observable action of the post-solve phase: a `print` or a
`warnings.warn`. -/
inductive Event where
  | printed (s : String)
  | warned (s : String)
  deriving DecidableEq

/-- Method `is_node_included`: the solver-reported value of the node's
decision variable is compared against the threshold `0.5`
(`self.milp_solver.getVal(self.x[node]) > 0.5`).  `val node` is the
value `getVal` reports for the variable `x[node]`. -/
def is_node_included (val : Nat → ℚ) (node : Nat) : Bool :=
  decide (0.5 < val node)

/-- Method `is_arc_covered`: one of the two endpoints is included. -/
def is_arc_covered (val : Nat → ℚ) (arc : Arc) : Bool :=
  is_node_included val arc.a || is_node_included val arc.b

/-- Method `is_arc_covered_verbose` (unused by the pipeline): a Python
`match` over the pair of endpoint inclusions, modelled as the sequential
pattern tests Python performs; the `raise RuntimeError` after the match
is the final fall-through case. -/
def is_arc_covered_verbose (val : Nat → ℚ) (arc : Arc) : List Event × Except String Bool :=
  let scrut := (is_node_included val arc.a, is_node_included val arc.b)
  if scrut = (true, false) then
    ([Event.printed ("  " ++ arcRepr arc ++ " is covered (left endpoint)")], Except.ok true)
  else if scrut = (false, true) then
    ([Event.printed ("  " ++ arcRepr arc ++ " is covered (right endpoint)")], Except.ok true)
  else if scrut = (true, true) then
    ([Event.printed ("  " ++ arcRepr arc ++ " is covered (both endpoints)")], Except.ok true)
  else if scrut = (false, false) then
    ([Event.printed ("  " ++ arcRepr arc ++ " is not covered!")], Except.ok false)
  else
    ([], Except.error ("RuntimeError"))

/-- Method `validate_solution`: print, `assert all(map(is_arc_covered,
arcs))`, print.  A failing assert raises `AssertionError` after the
first print.  The method reads `self` and mutates nothing, so the
`Problem` is returned unchanged. -/
def validate_solution (p : Problem) (val : Nat → ℚ) :
    Problem × List Event × Option String :=
  if p.arcs.all (fun arc => is_arc_covered val arc) then
    (p, [Event.printed ("Double-checking that every arc is covered"),
         Event.printed (" ... done.")], none)
  else
    (p, [Event.printed ("Double-checking that every arc is covered")],
     some ("AssertionError"))

/-- Method `display_solution`: filter the included nodes out of
`self.nodes`, sum their weights and print the two summary lines.  The
`%.3f` float formatting of the weight is abstracted by `toString`.
The method reads `self` and mutates nothing. -/
def display_solution (p : Problem) (val : Nat → ℚ) : Problem × List Event :=
  let included_nodes := (List.range p.weights.length).filter
    (fun node => is_node_included val node)
  let weight : ℚ := (included_nodes.map (fun a => p.weights.getD a 0)).sum
  (p,
   [Event.printed ("Solution has weight " ++ toString weight ++
      " and consists of the following " ++ toString included_nodes.length ++ " nodes:"),
    Event.printed (toString included_nodes)])

/-- Method `solve_problem` after `optimize` returned: the `match` over
`getStatus()`.  `status` is the status string, `val` the assignment the
solver reports.  The returned components are the (unchanged) problem
object, the trace of prints/warnings and the propagated
`AssertionError` of `validate_solution` when validation fails. -/
def solve_problem (p : Problem) (status : String) (val : Nat → ℚ) :
    Problem × List Event × Option String :=
  let hdr : List Event := [Event.printed ("Solving problem using SCIP backend.")]
  if status = "optimal" then
    match validate_solution p val with
    | (p1, vtrace, some e) =>
      (p1, hdr ++ [Event.printed ("Optimal solution found.")] ++ vtrace, some e)
    | (p1, vtrace, none) =>
      match display_solution p1 val with
      | (p2, dtrace) =>
        (p2, hdr ++ [Event.printed ("Optimal solution found.")] ++ vtrace ++ dtrace, none)
  else if status = "timelimit" then
    match validate_solution p val with
    | (p1, vtrace, some e) =>
      (p1, hdr ++ [Event.warned ("Solver timed out on a feasible, but potentially suboptimal solution.")] ++ vtrace, some e)
    | (p1, vtrace, none) =>
      match display_solution p1 val with
      | (p2, dtrace) =>
        (p2, hdr ++ [Event.warned ("Solver timed out on a feasible, but potentially suboptimal solution.")] ++ vtrace ++ dtrace, none)
  else if status = "infeasible" then
    (p, hdr ++ [Event.printed ("Problem is infeasible: No vertex covers exist.")], none)
  else if status = "unbounded" then
    (p, hdr ++ [Event.printed ("Problem is unbounded; are all vertex weights finite?")], none)
  else
    (p, hdr ++ [Event.printed ("Solver failed to converge within self.SOLVER_TIME_LIMIT = " ++
      toString SOLVER_TIME_LIMIT ++ " seconds.")], none)

/-- The construct-then-solve pipeline of the script: build the problem
and, when construction succeeds, run `optimize` (the external solver,
here a parameter `opt` producing a status and an assignment) and then
the status dispatch.  A construction error propagates and the solver is
never invoked. -/
def run_pipeline (opt : Problem → String × (Nat → ℚ)) (arcs : List Arc)
    (weights : List ℚ) : Except String (Problem × List Event × Option String) :=
  match buildProblem arcs weights with
  | (_, some err) => Except.error err
  | (p, none) => Except.ok (solve_problem p (opt p).1 (opt p).2)

/-- The status line and header events emitted before validation in the
two accepting statuses. -/
def status_events (status : String) : List Event :=
  [Event.printed ("Solving problem using SCIP backend.")] ++
    (if status = "optimal" then [Event.printed ("Optimal solution found.")]
     else [Event.warned ("Solver timed out on a feasible, but potentially suboptimal solution.")])

/-! ### Helper lemmas about the model-construction phase -/

/-- `_validate_arc` accepts an arc exactly when both endpoints are valid
node indices. -/
lemma validate_arc_eq_none_iff (n : Nat) (arc : Arc) :
    validate_arc n arc = none ↔ arcValid n arc := by
  by_cases h1 : arc.a < n <;> by_cases h2 : arc.b < n <;>
    simp [validate_arc, arcValid, h1, h2]

/-- An invalid arc makes `_validate_arc` raise, with one of its two
messages. -/
lemma validate_arc_invalid (n : Nat) (arc : Arc) (h : ¬ arcValid n arc) :
    ∃ msg, validate_arc n arc = some msg ∧
      (msg = "Left endpoint of arc " ++ arcRepr arc ++ " is outside the index of `self.weights`" ∨
       msg = "Right endpoint of arc " ++ arcRepr arc ++ " is outside the index of `self.weights`") := by
  by_cases h1 : arc.a < n
  · by_cases h2 : arc.b < n
    · exact absurd ⟨h1, h2⟩ h
    · exact ⟨_, by simp [validate_arc, h1, h2], Or.inr rfl⟩
  · exact ⟨_, by simp [validate_arc, h1], Or.inl rfl⟩

/-- On a list of valid arcs, `generate_constraints` never raises and
appends exactly one constraint per arc, in input order. -/
lemma generate_constraints_all_valid (n : Nat) (arcs : List Arc) (m : SolverModel)
    (h : ∀ a ∈ arcs, arcValid n a) :
    generate_constraints n arcs m =
      ({ m with constraints := m.constraints ++ arcs.map consOf }, none) := by
  induction arcs generalizing m with
  | nil => simp [generate_constraints]
  | cons arc rest ih =>
    have hva : validate_arc n arc = none :=
      (validate_arc_eq_none_iff n arc).mpr (h arc (by simp))
    rw [generate_constraints, hva]
    rw [ih (addCons m arc) (fun a ha => h a (by simp [ha]))]
    simp [addCons]

/-- When the arcs list has a first invalid arc, `generate_constraints`
raises that arc's error and leaves behind exactly the constraints of the
valid arcs preceding it. -/
lemma generate_constraints_first_invalid (n : Nat) (pre : List Arc) (bad : Arc)
    (rest : List Arc) (m : SolverModel)
    (hpre : ∀ a ∈ pre, arcValid n a) (hbad : ¬ arcValid n bad) :
    generate_constraints n (pre ++ bad :: rest) m =
      ({ m with constraints := m.constraints ++ pre.map consOf }, validate_arc n bad) := by
  induction pre generalizing m with
  | nil =>
    obtain ⟨msg, hmsg, -⟩ := validate_arc_invalid n bad hbad
    simp only [List.nil_append]
    rw [generate_constraints, hmsg]
    simp
  | cons arc pre ih =>
    have hva : validate_arc n arc = none :=
      (validate_arc_eq_none_iff n arc).mpr (hpre arc (by simp))
    rw [List.cons_append, generate_constraints, hva]
    rw [ih (addCons m arc) (fun a ha => hpre a (by simp [ha]))]
    simp [addCons]

/-- Any list containing an invalid arc splits at its first invalid arc. -/
lemma exists_first_invalid (n : Nat) (arcs : List Arc)
    (h : ∃ a ∈ arcs, ¬ arcValid n a) :
    ∃ pre bad rest, arcs = pre ++ bad :: rest ∧
      (∀ a ∈ pre, arcValid n a) ∧ ¬ arcValid n bad := by
  induction arcs with
  | nil => obtain ⟨a, ha, -⟩ := h; cases ha
  | cons hd tl ih =>
    by_cases hhd : arcValid n hd
    · have htl : ∃ a ∈ tl, ¬ arcValid n a := by
        obtain ⟨a, ha, hna⟩ := h
        rcases List.mem_cons.mp ha with rfl | hmem
        · exact absurd hhd hna
        · exact ⟨a, hmem, hna⟩
      obtain ⟨pre, bad, rest, heq, hpre, hbad⟩ := ih htl
      refine ⟨hd :: pre, bad, rest, by rw [heq]; rfl, ?_, hbad⟩
      intro a ha
      rcases List.mem_cons.mp ha with rfl | h2
      · exact hhd
      · exact hpre a h2
    · exact ⟨[], hd, tl, rfl, by simp, hhd⟩

/-- Construction on an all-valid arc list: no error, and the final
solver state carries the variables, one constraint per arc in order, and
the objective. -/
lemma buildProblem_all_valid (arcs : List Arc) (weights : List ℚ)
    (h : ∀ a ∈ arcs, arcValid weights.length a) :
    buildProblem arcs weights =
      ({ arcs := arcs, weights := weights,
         solver := generate_objective_function weights
           { generate_decision_variables weights init_solver with
             constraints := arcs.map consOf } }, none) := by
  unfold buildProblem
  rw [generate_constraints_all_valid weights.length arcs _ h]
  simp [generate_decision_variables, init_solver]

/-- Construction on a list whose first invalid arc is `bad`: the error
of `bad` propagates, the objective is never registered, and the solver
state holds exactly the constraints of the preceding valid arcs. -/
lemma buildProblem_first_invalid (pre : List Arc) (bad : Arc) (rest : List Arc)
    (weights : List ℚ) (hpre : ∀ a ∈ pre, arcValid weights.length a)
    (hbad : ¬ arcValid weights.length bad) :
    ∃ msg, validate_arc weights.length bad = some msg ∧
      buildProblem (pre ++ bad :: rest) weights =
        ({ arcs := pre ++ bad :: rest, weights := weights,
           solver := { generate_decision_variables weights init_solver with
                       constraints := pre.map consOf } }, some msg) := by
  obtain ⟨msg, hmsg, -⟩ := validate_arc_invalid weights.length bad hbad
  refine ⟨msg, hmsg, ?_⟩
  unfold buildProblem
  rw [generate_constraints_first_invalid weights.length pre bad rest _ hpre hbad, hmsg]
  simp [generate_decision_variables, init_solver]

/-- Sum of a mapped range as a `Finset` sum. -/
lemma sum_map_range (n : Nat) (f : Nat → ℚ) :
    ((List.range n).map f).sum = ∑ i ∈ Finset.range n, f i := by
  induction n with
  | zero => simp
  | succ k ih =>
    rw [List.range_succ, List.map_append, List.sum_append, Finset.sum_range_succ, ih]
    simp

/-! ### Claim C1 -/

/-- Claim C1 as frozen is false on the code: with arcs
`[Arc(0,1), Arc(0,5)]` and two weights, construction fails (the second
arc is invalid) but the constraint of the first arc has already been
registered with the solver, so a partially-built formulation is left
behind. -/
theorem claim_C1_counterexample :
    ((buildProblem [Arc.mk 0 1, Arc.mk 0 5] [1, 1]).2).isSome = true ∧
    (buildProblem [Arc.mk 0 1, Arc.mk 0 5] [1, 1]).1.solver.constraints =
      [consOf (Arc.mk 0 1)] ∧
    (buildProblem [Arc.mk 0 1, Arc.mk 0 5] [1, 1]).1.solver.constraints ≠ [] := by
  decide

/-- Claim C1, amended: when some arc has an invalid endpoint,
construction fails with the descriptive `_validate_arc` error of the
first invalid arc, raised before that arc's constraint (or any later
constraint) is added and before the objective is registered — but the
constraints of the valid arcs preceding it have already been registered
with the solver; the partially-built formulation is never solved (the
pipeline propagates the error without invoking the solver). -/
theorem claim_C1 (pre : List Arc) (bad : Arc) (rest : List Arc) (weights : List ℚ)
    (hpre : ∀ a ∈ pre, arcValid weights.length a)
    (hbad : ¬ arcValid weights.length bad) :
    ∃ msg, validate_arc weights.length bad = some msg ∧
      buildProblem (pre ++ bad :: rest) weights =
        ({ arcs := pre ++ bad :: rest, weights := weights,
           solver := { generate_decision_variables weights init_solver with
                       constraints := pre.map consOf } }, some msg) ∧
      ∀ opt, run_pipeline opt (pre ++ bad :: rest) weights = Except.error msg := by
  obtain ⟨msg, hmsg, hbuild⟩ := buildProblem_first_invalid pre bad rest weights hpre hbad
  refine ⟨msg, hmsg, hbuild, ?_⟩
  intro opt
  unfold run_pipeline
  rw [hbuild]

/-- Witness for the amended claim C1 at a concrete instance. -/
theorem claim_C1_witness :
    ∃ msg, validate_arc ([(1 : ℚ), 1]).length (Arc.mk 0 5) = some msg ∧
      buildProblem ([Arc.mk 0 1] ++ Arc.mk 0 5 :: []) [1, 1] =
        ({ arcs := [Arc.mk 0 1] ++ Arc.mk 0 5 :: [], weights := [1, 1],
           solver := { generate_decision_variables [1, 1] init_solver with
                       constraints := [Arc.mk 0 1].map consOf } }, some msg) ∧
      ∀ opt, run_pipeline opt ([Arc.mk 0 1] ++ Arc.mk 0 5 :: []) [1, 1] =
        Except.error msg :=
  claim_C1 [Arc.mk 0 1] (Arc.mk 0 5) [] [1, 1] (by decide) (by decide)

/-! ### Claim C3 -/

/-- Claim C3: on an instance whose arcs are all valid, construction
succeeds and registers exactly one constraint per arc, in the order of
the input arc list (ascending arc index); constraint `i` is
`x[arcs[i].a] + x[arcs[i].b] ≥ 1`, and jointly the registered
constraints say exactly that every arc has an endpoint with value
contribution at least one.  The builder is a pure function of the input,
hence deterministic. -/
theorem claim_C3 (arcs : List Arc) (weights : List ℚ)
    (h : ∀ a ∈ arcs, arcValid weights.length a) :
    (buildProblem arcs weights).2 = none ∧
    (buildProblem arcs weights).1.solver.constraints = arcs.map consOf ∧
    ∀ x : Nat → ℚ,
      satisfiesAll (buildProblem arcs weights).1.solver.constraints x ↔
        ∀ arc ∈ arcs, 1 ≤ x arc.a + x arc.b := by
  rw [buildProblem_all_valid arcs weights h]
  refine ⟨rfl, by simp [generate_objective_function], ?_⟩
  intro x
  simp [satisfiesAll, generate_objective_function, consSat, consOf]

/-- Witness for claim C3 at a concrete instance. -/
theorem claim_C3_witness :
    (buildProblem [Arc.mk 0 1] [1, 1]).2 = none ∧
    (buildProblem [Arc.mk 0 1] [1, 1]).1.solver.constraints = [Arc.mk 0 1].map consOf ∧
    ∀ x : Nat → ℚ,
      satisfiesAll (buildProblem [Arc.mk 0 1] [1, 1]).1.solver.constraints x ↔
        ∀ arc ∈ [Arc.mk 0 1], 1 ≤ x arc.a + x arc.b :=
  claim_C3 [Arc.mk 0 1] [1, 1] (by decide)

/-! ### Claim C4 -/

/-- Claim C4: the objective registered by `generate_objective_function`
evaluates, on every assignment, to the sum over all nodes of
`weights[n] * x[n]` (the total weight of the selected nodes), and the
sense is minimization. -/
theorem claim_C4 (weights : List ℚ) (m : SolverModel) (x : Nat → ℚ) :
    evalLinear (generate_objective_function weights m).objective x =
      ∑ n ∈ Finset.range weights.length, weights.getD n 0 * x n ∧
    (generate_objective_function weights m).sense = "minimize" := by
  constructor
  · unfold generate_objective_function evalLinear
    rw [List.map_map, sum_map_range]
    simp [Function.comp]
  · rfl

/-- Witness for claim C4 at a concrete instance. -/
theorem claim_C4_witness :
    evalLinear (generate_objective_function [2, 3] init_solver).objective (fun _ => 1) =
      ∑ n ∈ Finset.range ([(2 : ℚ), 3]).length, ([(2 : ℚ), 3]).getD n 0 * (fun _ => (1 : ℚ)) n ∧
    (generate_objective_function [2, 3] init_solver).sense = "minimize" :=
  claim_C4 [2, 3] init_solver (fun _ => 1)

/-! ### Claim C6 -/

/-- Claim C6: when some arc references a node index outside the weight
range, construction raises the descriptive input-defect error naming the
offending arc, and the pipeline propagates it without ever invoking the
solver (the result is the same for every solver `opt`). -/
theorem claim_C6 (arcs : List Arc) (weights : List ℚ)
    (h : ∃ a ∈ arcs, ¬ arcValid weights.length a) :
    ∃ arc msg, arc ∈ arcs ∧ ¬ arcValid weights.length arc ∧
      validate_arc weights.length arc = some msg ∧
      (msg = "Left endpoint of arc " ++ arcRepr arc ++ " is outside the index of `self.weights`" ∨
       msg = "Right endpoint of arc " ++ arcRepr arc ++ " is outside the index of `self.weights`") ∧
      (buildProblem arcs weights).2 = some msg ∧
      ∀ opt, run_pipeline opt arcs weights = Except.error msg := by
  obtain ⟨pre, bad, rest, rfl, hpre, hbad⟩ := exists_first_invalid weights.length arcs h
  obtain ⟨msg, hmsg, hdisj⟩ := validate_arc_invalid weights.length bad hbad
  obtain ⟨msg2, hmsg2, hbuild⟩ := buildProblem_first_invalid pre bad rest weights hpre hbad
  have hm : msg = msg2 := by rw [hmsg] at hmsg2; exact Option.some.inj hmsg2
  refine ⟨bad, msg2, by simp, hbad, hmsg2, hm ▸ hdisj, by rw [hbuild], ?_⟩
  intro opt
  unfold run_pipeline
  rw [hbuild]

/-- Witness for claim C6 at a concrete instance. -/
theorem claim_C6_witness :
    ∃ arc msg, arc ∈ [Arc.mk 0 3] ∧ ¬ arcValid ([(1 : ℚ)]).length arc ∧
      validate_arc ([(1 : ℚ)]).length arc = some msg ∧
      (msg = "Left endpoint of arc " ++ arcRepr arc ++ " is outside the index of `self.weights`" ∨
       msg = "Right endpoint of arc " ++ arcRepr arc ++ " is outside the index of `self.weights`") ∧
      (buildProblem [Arc.mk 0 3] [1]).2 = some msg ∧
      ∀ opt, run_pipeline opt [Arc.mk 0 3] [1] = Except.error msg :=
  claim_C6 [Arc.mk 0 3] [1] (by decide)

/-! ### Claim C7 -/

/-- Claim C7: on an instance whose arcs are all valid, construction
never raises and registers exactly one binary decision variable per
node, indexed by node identifier (`x[node]`), for all
`len(weights)` nodes. -/
theorem claim_C7 (arcs : List Arc) (weights : List ℚ)
    (h : ∀ a ∈ arcs, arcValid weights.length a) :
    (buildProblem arcs weights).2 = none ∧
    (buildProblem arcs weights).1.solver.vars =
      (List.range weights.length).map
        (fun node => Var.mk ("x[" ++ toString node ++ "]") ("BINARY")) ∧
    (buildProblem arcs weights).1.solver.vars.length = weights.length := by
  rw [buildProblem_all_valid arcs weights h]
  refine ⟨rfl, ?_, ?_⟩
  · simp [generate_objective_function, generate_decision_variables]
  · simp [generate_objective_function, generate_decision_variables]

/-- Witness for claim C7 at a concrete instance. -/
theorem claim_C7_witness :
    (buildProblem [Arc.mk 0 1] [5, 1]).2 = none ∧
    (buildProblem [Arc.mk 0 1] [5, 1]).1.solver.vars =
      (List.range ([(5 : ℚ), 1]).length).map
        (fun node => Var.mk ("x[" ++ toString node ++ "]") ("BINARY")) ∧
    (buildProblem [Arc.mk 0 1] [5, 1]).1.solver.vars.length = ([(5 : ℚ), 1]).length :=
  claim_C7 [Arc.mk 0 1] [5, 1] (by decide)

/-! ### Claim C5 -/

/-- Claim C5: for every node and every solver-reported value in
`[0, 1]`, the node is classified as included exactly when its value
strictly exceeds `1/2`; in particular inclusion is not decided by exact
equality with `1`, so a value such as `0.999999` counts as included. -/
theorem claim_C5 (val : Nat → ℚ) (node : Nat)
    (h0 : 0 ≤ val node) (h1 : val node ≤ 1) :
    (is_node_included val node = true ↔ (1 / 2 : ℚ) < val node) ∧
    (val node = 999999 / 1000000 → is_node_included val node = true) := by
  constructor
  · simp only [is_node_included, decide_eq_true_eq]
    norm_num
  · intro he
    simp only [is_node_included, he]
    norm_num

/-- A solver-reported value close to, but not exactly, one. -/
def nearOne : Nat → ℚ := fun _ => 999999 / 1000000

/-- Witness for claim C5 at the value `0.999999`. -/
theorem claim_C5_witness :
    (is_node_included nearOne 0 = true ↔ (1 / 2 : ℚ) < nearOne 0) ∧
    (nearOne 0 = 999999 / 1000000 → is_node_included nearOne 0 = true) :=
  claim_C5 nearOne 0 (by norm_num [nearOne]) (by norm_num [nearOne])

/-! ### Claim C8 -/

/-- The triangle instance of Scenario A: nodes `{0,1,2}` with unit
weights and the three arcs of a triangle, as built by the model
builder. -/
def triangleProblem : Problem :=
  (buildProblem [Arc.mk 0 1, Arc.mk 1 2, Arc.mk 0 2] [1, 1, 1]).1

/-- A 0/1 assignment on the three nodes of the triangle instance. -/
def boolVal (b0 b1 b2 : Bool) : Nat → ℚ := fun n =>
  match n with
  | 0 => if b0 then 1 else 0
  | 1 => if b1 then 1 else 0
  | 2 => if b2 then 1 else 0
  | _ => 0

/-- Claim C8: over all 0/1 assignments satisfying the constraints the
model builder registers for the triangle instance, the registered
objective has minimum value `2`, attained exactly by the assignments
selecting two of the three nodes. -/
theorem claim_C8 :
    (∀ b0 b1 b2 : Bool,
      satisfiesAll triangleProblem.solver.constraints (boolVal b0 b1 b2) →
        2 ≤ evalLinear triangleProblem.solver.objective (boolVal b0 b1 b2) ∧
        (evalLinear triangleProblem.solver.objective (boolVal b0 b1 b2) = 2 ↔
          (if b0 then 1 else 0) + (if b1 then 1 else 0) + (if b2 then 1 else 0) = (2 : Nat))) ∧
    (∃ b0 b1 b2 : Bool,
      satisfiesAll triangleProblem.solver.constraints (boolVal b0 b1 b2) ∧
      evalLinear triangleProblem.solver.objective (boolVal b0 b1 b2) = 2) := by
  have hcons : triangleProblem.solver.constraints =
      [consOf (Arc.mk 0 1), consOf (Arc.mk 1 2), consOf (Arc.mk 0 2)] := rfl
  have hobj : triangleProblem.solver.objective = [(1, 0), (1, 1), (1, 2)] := rfl
  have heval : ∀ x : Nat → ℚ,
      evalLinear triangleProblem.solver.objective x = x 0 + x 1 + x 2 := by
    intro x
    rw [hobj]
    simp [evalLinear]
    ring
  constructor
  · intro b0 b1 b2 hsat
    rw [hcons] at hsat
    have h01 := hsat (consOf (Arc.mk 0 1)) (by simp)
    have h12 := hsat (consOf (Arc.mk 1 2)) (by simp)
    have h02 := hsat (consOf (Arc.mk 0 2)) (by simp)
    simp only [consSat, consOf] at h01 h12 h02
    rw [heval]
    cases b0 <;> cases b1 <;> cases b2 <;>
      norm_num [boolVal] at h01 h12 h02 ⊢
  · refine ⟨true, true, false, ?_, ?_⟩
    · rw [hcons]
      simp only [satisfiesAll]
      intro c hc
      simp only [List.mem_cons, List.not_mem_nil, or_false] at hc
      rcases hc with rfl | rfl | rfl <;> norm_num [consSat, consOf, boolVal]
    · rw [heval]
      norm_num [boolVal]

/-- Witness for claim C8: the cover `{0, 1}` satisfies the registered
constraints and attains objective value `2`. -/
theorem claim_C8_witness :
    satisfiesAll triangleProblem.solver.constraints (boolVal true true false) ∧
    evalLinear triangleProblem.solver.objective (boolVal true true false) = 2 := by
  have hsat : satisfiesAll triangleProblem.solver.constraints (boolVal true true false) := by
    have hcons : triangleProblem.solver.constraints =
        [consOf (Arc.mk 0 1), consOf (Arc.mk 1 2), consOf (Arc.mk 0 2)] := rfl
    rw [hcons]
    simp only [satisfiesAll]
    intro c hc
    simp only [List.mem_cons, List.not_mem_nil, or_false] at hc
    rcases hc with rfl | rfl | rfl <;> norm_num [consSat, consOf, boolVal]
  exact ⟨hsat, (claim_C8.1 true true false hsat).2.mpr (by decide)⟩

/-! ### Claim C10 -/

/-- Claim C10: `is_arc_covered_verbose` returns the same boolean as
`is_arc_covered` (the disjunction of the endpoint inclusions) on every
arc, and never reaches the `RuntimeError` after its match: the four
sequential cases over the pair of booleans are exhaustive.  This holds
for every arc, in particular for arcs with valid endpoints. -/
theorem claim_C10 (val : Nat → ℚ) (arc : Arc) :
    (is_arc_covered_verbose val arc).2 = Except.ok (is_arc_covered val arc) := by
  unfold is_arc_covered_verbose is_arc_covered
  cases hA : is_node_included val arc.a <;> cases hB : is_node_included val arc.b <;>
    simp [hA, hB]

/-- Witness for claim C10 at a concrete assignment and arc. -/
theorem claim_C10_witness :
    (is_arc_covered_verbose (fun _ => 1) (Arc.mk 0 1)).2 =
      Except.ok (is_arc_covered (fun _ => 1) (Arc.mk 0 1)) :=
  claim_C10 (fun _ => 1) (Arc.mk 0 1)

/-! ### Claim C2 -/

lemma status_events_optimal :
    status_events ("optimal") =
      [Event.printed ("Solving problem using SCIP backend."),
       Event.printed ("Optimal solution found.")] := rfl

lemma status_events_timelimit :
    status_events ("timelimit") =
      [Event.printed ("Solving problem using SCIP backend."),
       Event.warned ("Solver timed out on a feasible, but potentially suboptimal solution.")] := rfl

/-- Claim C2: `validate_solution` raises its `AssertionError` exactly
when some arc has neither endpoint included under the binarized
assignment; for the statuses `optimal` and `timelimit` the status
dispatch runs full validation before any reporting (the display events
come strictly after the validation events), and a validation failure
propagates as the fatal error of the whole dispatch — reporting is then
skipped, the failure is never downgraded to a warning. -/
theorem claim_C2 (p : Problem) (val : Nat → ℚ) (status : String)
    (h : status = "optimal" ∨ status = "timelimit") :
    ((validate_solution p val).2.2.isSome = true ↔
      ∃ arc ∈ p.arcs,
        is_node_included val arc.a = false ∧ is_node_included val arc.b = false) ∧
    (solve_problem p status val).2.2 = (validate_solution p val).2.2 ∧
    ((validate_solution p val).2.2.isSome = true →
      (solve_problem p status val).2.1 =
        status_events status ++ (validate_solution p val).2.1) ∧
    ((validate_solution p val).2.2 = none →
      (solve_problem p status val).2.1 =
        status_events status ++ (validate_solution p val).2.1 ++ (display_solution p val).2) := by
  have hiff : (validate_solution p val).2.2.isSome = true ↔
      ∃ arc ∈ p.arcs,
        is_node_included val arc.a = false ∧ is_node_included val arc.b = false := by
    by_cases hc : p.arcs.all (fun arc => is_arc_covered val arc) = true
    · rw [validate_solution, if_pos hc]
      simp only [Option.isSome_none, Bool.false_eq_true, false_iff]
      rintro ⟨arc, hmem, hA, hB⟩
      have hcov := List.all_eq_true.mp hc arc hmem
      simp only [is_arc_covered, hA, hB, Bool.or_self] at hcov
      exact absurd hcov (by simp)
    · rw [validate_solution, if_neg hc]
      simp only [Option.isSome_some, true_iff]
      rw [List.all_eq_true] at hc
      push_neg at hc
      obtain ⟨arc, hmem, hncov⟩ := hc
      refine ⟨arc, hmem, ?_, ?_⟩
      · cases hA : is_node_included val arc.a
        · rfl
        · exact absurd (by simp [is_arc_covered, hA]) hncov
      · cases hB : is_node_included val arc.b
        · rfl
        · exact absurd (by simp [is_arc_covered, hB]) hncov
  refine ⟨hiff, ?_⟩
  rcases h with rfl | rfl
  · by_cases hc : p.arcs.all (fun arc => is_arc_covered val arc) = true
    · have hval : validate_solution p val =
          (p, [Event.printed ("Double-checking that every arc is covered"),
               Event.printed (" ... done.")], none) := by
        rw [validate_solution, if_pos hc]
      have hsp : solve_problem p ("optimal") val =
          ((display_solution p val).1,
           [Event.printed ("Solving problem using SCIP backend."),
            Event.printed ("Optimal solution found."),
            Event.printed ("Double-checking that every arc is covered"),
            Event.printed (" ... done.")] ++ (display_solution p val).2, none) := by
        simp only [solve_problem, hval]
        simp
      refine ⟨?_, ?_, ?_⟩
      · rw [hsp, hval]
      · intro hh
        rw [hval] at hh
        simp at hh
      · intro _
        rw [hsp, hval, status_events_optimal]
        simp
    · have hval : validate_solution p val =
          (p, [Event.printed ("Double-checking that every arc is covered")],
           some ("AssertionError")) := by
        rw [validate_solution, if_neg hc]
      have hsp : solve_problem p ("optimal") val =
          (p, [Event.printed ("Solving problem using SCIP backend."),
               Event.printed ("Optimal solution found."),
               Event.printed ("Double-checking that every arc is covered")],
           some ("AssertionError")) := by
        simp only [solve_problem, hval]
        simp
      refine ⟨?_, ?_, ?_⟩
      · rw [hsp, hval]
      · intro _
        rw [hsp, hval, status_events_optimal]
        simp
      · intro hh
        rw [hval] at hh
        simp at hh
  · by_cases hc : p.arcs.all (fun arc => is_arc_covered val arc) = true
    · have hval : validate_solution p val =
          (p, [Event.printed ("Double-checking that every arc is covered"),
               Event.printed (" ... done.")], none) := by
        rw [validate_solution, if_pos hc]
      have hsp : solve_problem p ("timelimit") val =
          ((display_solution p val).1,
           [Event.printed ("Solving problem using SCIP backend."),
            Event.warned ("Solver timed out on a feasible, but potentially suboptimal solution."),
            Event.printed ("Double-checking that every arc is covered"),
            Event.printed (" ... done.")] ++ (display_solution p val).2, none) := by
        simp only [solve_problem, hval]
        simp
      refine ⟨?_, ?_, ?_⟩
      · rw [hsp, hval]
      · intro hh
        rw [hval] at hh
        simp at hh
      · intro _
        rw [hsp, hval, status_events_timelimit]
        simp
    · have hval : validate_solution p val =
          (p, [Event.printed ("Double-checking that every arc is covered")],
           some ("AssertionError")) := by
        rw [validate_solution, if_neg hc]
      have hsp : solve_problem p ("timelimit") val =
          (p, [Event.printed ("Solving problem using SCIP backend."),
               Event.warned ("Solver timed out on a feasible, but potentially suboptimal solution."),
               Event.printed ("Double-checking that every arc is covered")],
           some ("AssertionError")) := by
        simp only [solve_problem, hval]
        simp
      refine ⟨?_, ?_, ?_⟩
      · rw [hsp, hval]
      · intro _
        rw [hsp, hval, status_events_timelimit]
        simp
      · intro hh
        rw [hval] at hh
        simp at hh

/-- Witness for claim C2 at a concrete instance with status
`optimal`. -/
theorem claim_C2_witness :
    (((validate_solution (buildProblem [] ([] : List ℚ)).1 (fun _ => 0)).2.2).isSome = true ↔
      ∃ arc ∈ (buildProblem [] ([] : List ℚ)).1.arcs,
        is_node_included (fun _ => 0) arc.a = false ∧
        is_node_included (fun _ => 0) arc.b = false) ∧
    (solve_problem (buildProblem [] ([] : List ℚ)).1 ("optimal") (fun _ => 0)).2.2 =
      (validate_solution (buildProblem [] ([] : List ℚ)).1 (fun _ => 0)).2.2 ∧
    ((validate_solution (buildProblem [] ([] : List ℚ)).1 (fun _ => 0)).2.2.isSome = true →
      (solve_problem (buildProblem [] ([] : List ℚ)).1 ("optimal") (fun _ => 0)).2.1 =
        status_events ("optimal") ++
          (validate_solution (buildProblem [] ([] : List ℚ)).1 (fun _ => 0)).2.1) ∧
    ((validate_solution (buildProblem [] ([] : List ℚ)).1 (fun _ => 0)).2.2 = none →
      (solve_problem (buildProblem [] ([] : List ℚ)).1 ("optimal") (fun _ => 0)).2.1 =
        status_events ("optimal") ++
          (validate_solution (buildProblem [] ([] : List ℚ)).1 (fun _ => 0)).2.1 ++
          (display_solution (buildProblem [] ([] : List ℚ)).1 (fun _ => 0)).2) :=
  claim_C2 (buildProblem [] ([] : List ℚ)).1 (fun _ => 0) ("optimal") (Or.inl rfl)

/-! ### Claim C9 -/

/-- Claim C9: the post-solve operations (`solve_problem`'s status
dispatch, `validate_solution`, `display_solution`) leave the problem
object — its arcs, weights and decision variables — unchanged, and
`display_solution` only reads and prints (its trace consists of print
events only).  `is_node_included` and `is_arc_covered` are pure boolean
reads and touch no state at all. -/
theorem claim_C9 (p : Problem) (val : Nat → ℚ) (status : String) :
    (solve_problem p status val).1 = p ∧
    (validate_solution p val).1 = p ∧
    (display_solution p val).1 = p ∧
    (solve_problem p status val).1.arcs = p.arcs ∧
    (solve_problem p status val).1.weights = p.weights ∧
    (solve_problem p status val).1.solver.vars = p.solver.vars ∧
    ∀ e ∈ (display_solution p val).2, ∃ s, e = Event.printed s := by
  have h1 : (validate_solution p val).1 = p := by
    rw [validate_solution]
    split <;> rfl
  have h2 : (display_solution p val).1 = p := rfl
  have h0 : (solve_problem p status val).1 = p := by
    simp only [solve_problem]
    split_ifs
    · rcases hv : validate_solution p val with ⟨p1, vtrace, err⟩
      have hp1 : p1 = p := by
        have h1b := h1
        rw [hv] at h1b
        exact h1b
      cases err with
      | some e => exact hp1
      | none => exact hp1
    · rcases hv : validate_solution p val with ⟨p1, vtrace, err⟩
      have hp1 : p1 = p := by
        have h1b := h1
        rw [hv] at h1b
        exact h1b
      cases err with
      | some e => exact hp1
      | none => exact hp1
    · rfl
    · rfl
    · rfl
  refine ⟨h0, h1, h2, by rw [h0], by rw [h0], by rw [h0], ?_⟩
  intro e he
  simp only [display_solution, List.mem_cons, List.not_mem_nil, or_false] at he
  rcases he with rfl | rfl
  · exact ⟨_, rfl⟩
  · exact ⟨_, rfl⟩

/-- Witness for claim C9 at a concrete problem, status and
assignment. -/
theorem claim_C9_witness :
    (solve_problem (buildProblem [] ([] : List ℚ)).1 ("infeasible") (fun _ => 0)).1 =
      (buildProblem [] ([] : List ℚ)).1 ∧
    (validate_solution (buildProblem [] ([] : List ℚ)).1 (fun _ => 0)).1 =
      (buildProblem [] ([] : List ℚ)).1 ∧
    (display_solution (buildProblem [] ([] : List ℚ)).1 (fun _ => 0)).1 =
      (buildProblem [] ([] : List ℚ)).1 ∧
    (solve_problem (buildProblem [] ([] : List ℚ)).1 ("infeasible") (fun _ => 0)).1.arcs =
      (buildProblem [] ([] : List ℚ)).1.arcs ∧
    (solve_problem (buildProblem [] ([] : List ℚ)).1 ("infeasible") (fun _ => 0)).1.weights =
      (buildProblem [] ([] : List ℚ)).1.weights ∧
    (solve_problem (buildProblem [] ([] : List ℚ)).1 ("infeasible") (fun _ => 0)).1.solver.vars =
      (buildProblem [] ([] : List ℚ)).1.solver.vars ∧
    ∀ e ∈ (display_solution (buildProblem [] ([] : List ℚ)).1 (fun _ => 0)).2,
      ∃ s, e = Event.printed s :=
  claim_C9 (buildProblem [] ([] : List ℚ)).1 (fun _ => 0) ("infeasible")

end MinimumVertexCover
